import Mathlib

/-!
# confluo rpc_client: client session protocol

A shallow embedding of `librpc/rpc/rpc_client.h`.  The C++ class keeps a
current table id (sentinel `-1`), a current schema and four `shared_ptr`
handles; every method either throws locally, dereferences a handle, or
forwards one request to the generated thrift stub.

* Member data becomes the structure `rpc_client`; a method becomes a function
  from the object and the wire history to an `outcome` holding how the call
  completed, the object afterwards and the wire history afterwards.
* The remote service and the transport are external: they are an arbitrary
  function `thrift_service` from the history of requests and the next request
  to either a reply or a thrift exception.  Theorems quantify over it.
* An empty `shared_ptr` is `none`; dereferencing it ends the call as `crashed`.
-/

namespace confluo.rpc

/-! ## Collaborator types -/

/-- A `std::string` holding raw record bytes; its length is a byte count. -/
abbrev bytes := List (Fin 256)

/-- A C++ `double` that the client only forwards: its 64-bit pattern. -/
structure double where
  bits : Nat
deriving DecidableEq, Repr

/-- Modelled from the spec: a column of `schema_t` (the schema header is not in
src): a named, typed column with a width in bytes. -/
structure column_t where
  name : String
  type_id : Nat
  size : Nat
deriving DecidableEq, Repr

/-- Modelled from the spec: `schema_t` (the schema header is not in src), an
ordered sequence of named, typed columns. -/
structure schema_t where
  columns : List column_t
deriving DecidableEq, Repr

/-- Modelled from the spec: `schema_t::record_size()` (the schema header is not
in src), the sum of the column widths. -/
def schema_t.record_size (s : schema_t) : Nat :=
  (s.columns.map column_t.size).sum

/-- Modelled from the spec: the wire form of a column (`rpc_types.h` is not in
src). -/
structure rpc_column where
  type_id : Nat
  type_size : Nat
  name : String
deriving DecidableEq, Repr

/-- The wire schema, `rpc_schema` of `rpc_types.h`. -/
abbrev rpc_schema := List rpc_column

/-- Modelled from the spec: `storage::storage_id` (its header is not in src),
the local storage mode, an enumeration value. -/
structure storage_id where
  id : Nat
deriving DecidableEq, Repr

/-- Modelled from the spec: `rpc_storage_mode` (`rpc_types.h` is not in src),
the wire storage mode. -/
structure rpc_storage_mode where
  value : Int
deriving DecidableEq, Repr

/-- Modelled from the spec: `rpc_iterator_handle` (`rpc_types.h` is not in
src), the server-assigned cursor token. -/
structure rpc_iterator_handle where
  token : Nat
deriving DecidableEq, Repr

/-- The reply of `get_table_info`: the fields `rpc_client` reads from it. -/
structure rpc_table_info where
  table_id : Int
  schema : rpc_schema
deriving DecidableEq, Repr

/-- Modelled from the spec: `rpc_type_conversions` (`rpc_type_conversions.h` is
not in src).  The three conversions the client calls are parameters. -/
structure rpc_type_conversions where
  /-- The overload `convert_schema(schema.columns())`, local to wire. -/
  to_wire : List column_t → rpc_schema
  /-- The overload `convert_schema(info.schema)`, wire to local. -/
  from_wire : rpc_schema → List column_t
  /-- The conversion `convert_mode(mode)`. -/
  convert_mode : storage_id → rpc_storage_mode

/-! ## The wire: requests, replies and the service -/

/-- One request leaving the client: a transport operation or a stub call with
its arguments in order. -/
inductive rpc_event where
  | transport_open (host : String) (port : Int)
  | transport_close
  | register_handler
  | deregister_handler
  | create_table (table_name : String) (schema : rpc_schema) (mode : rpc_storage_mode)
  | get_table_info (table_name : String)
  | remove_table (table_id : Int)
  | add_index (table_id : Int) (field_name : String) (bucket_size : double)
  | remove_index (table_id : Int) (field_name : String)
  | add_filter (table_id : Int) (filter_name : String) (filter_expr : String)
  | remove_filter (table_id : Int) (filter_name : String)
  | add_trigger (table_id : Int) (trigger_name : String) (filter_name : String)
      (trigger_expr : String)
  | remove_trigger (table_id : Int) (trigger_name : String)
  | append (table_id : Int) (record : bytes)
  | read (table_id : Int) (offset : Int) (nrecords : Nat)
  | adhoc_filter (table_id : Int) (filter_expr : String)
  | predef_filter (table_id : Int) (filter_name : String) (begin_ms : Int) (end_ms : Int)
  | combined_filter (table_id : Int) (filter_name : String) (filter_expr : String)
      (begin_ms : Int) (end_ms : Int)
  | alerts_by_time (table_id : Int) (begin_ms : Int) (end_ms : Int)
  | num_records (table_id : Int)
  /-- Modelled from the spec: the further-page request a stream sends for its
  cursor handle (the stream headers are not in src); `rpc_client` never sends
  it. -/
  | next_page (table_id : Int) (handle : rpc_iterator_handle)
deriving DecidableEq, Repr

/-- The type of the value a request returns. -/
@[reducible] def reply : rpc_event → Type
  | .create_table _ _ _ => Int
  | .get_table_info _ => rpc_table_info
  | .read _ _ _ => bytes
  | .adhoc_filter _ _ => rpc_iterator_handle
  | .predef_filter _ _ _ _ => rpc_iterator_handle
  | .combined_filter _ _ _ _ _ => rpc_iterator_handle
  | .alerts_by_time _ _ _ => rpc_iterator_handle
  | .num_records _ => Int
  | .next_page _ _ => rpc_iterator_handle
  | _ => Unit

/-- An exception raised by the thrift stub or the transport. -/
structure thrift_exception where
  what : String
deriving DecidableEq, Repr

/-- The remote service together with the transport under it: given the
requests issued so far and the next request, the reply or the exception. -/
abbrev thrift_service := (history : List rpc_event) → (e : rpc_event) →
  Except thrift_exception (reply e)

/-! ## The client object -/

/-- The object behind `socket_`. -/
structure TSocket where
  host : String
  port : Int
deriving DecidableEq, Repr

/-- The object behind `transport_`: whether it is open. -/
structure TTransport where
  is_open : Bool
deriving DecidableEq, Repr

/-- Modelled from the spec: `rpc_record_batch_builder`
(`rpc_record_batch_builder.h` is not in src), the records buffered so far. -/
structure rpc_record_batch_builder where
  buffered : List bytes
deriving DecidableEq, Repr

/-- The data members of `rpc_client`.  A `shared_ptr` member is `none` when
empty; `protocol_` and `client_` point to objects without state of their
own. -/
structure rpc_client where
  cur_table_id_ : Int
  cur_schema_ : schema_t
  builder_ : rpc_record_batch_builder
  read_buffer_ : Int × bytes
  socket_ : Option TSocket
  transport_ : Option TTransport
  protocol_ : Option Unit
  client_ : Option Unit
deriving DecidableEq, Repr

/-- What a method can throw. -/
inductive exception where
  | illegal_state_exception (msg : String)
  | thrift (e : thrift_exception)
deriving DecidableEq, Repr

/-- How a call completes: it returns, it throws, or it dereferences an empty
`shared_ptr` and the process goes down. -/
inductive completion (α : Type) where
  | returned (value : α)
  | thrown (e : exception)
  | crashed
deriving DecidableEq, Repr

/-- A finished call: its completion, the object afterwards, the wire history
afterwards. -/
structure outcome (α : Type) where
  result : completion α
  self : rpc_client
  wire : List rpc_event
deriving DecidableEq

/-- Modelled from the spec: `rpc_record_stream` (`rpc_record_stream.h` is not in
src): the constructor stores the table id, the schema, the shared stub and the
cursor handle, and fetches nothing. -/
structure rpc_record_stream where
  table_id : Int
  schema : schema_t
  client : Unit
  handle : rpc_iterator_handle
deriving DecidableEq, Repr

/-- Modelled from the spec: `rpc_alert_stream` (`rpc_alert_stream.h` is not in
src): the constructor stores the table id, the shared stub and the cursor
handle, and fetches nothing. -/
structure rpc_alert_stream where
  table_id : Int
  client : Unit
  handle : rpc_iterator_handle
deriving DecidableEq, Repr

/-- The message of the table-selection guard. -/
def must_set_table : exception :=
  .illegal_state_exception "Must set table first"

/-- The default constructor `rpc_client()`: `cur_table_id_(-1)`,
`read_buffer_(-1, "")`, every other member default-constructed. -/
def rpc_client.init : rpc_client :=
  { cur_table_id_ := -1
    cur_schema_ := ⟨[]⟩
    builder_ := ⟨[]⟩
    read_buffer_ := (-1, [])
    socket_ := none
    transport_ := none
    protocol_ := none
    client_ := none }

/-- The method `disconnect()`.  The log line is not modelled; a `close()` that
throws is taken to leave the transport as it was. -/
def disconnect (srv : thrift_service) (c : rpc_client) (w : List rpc_event) : outcome Unit :=
  match c.transport_ with
  | none => ⟨.crashed, c, w⟩
  | some t =>
    if t.is_open then
      match c.socket_ with
      | none => ⟨.crashed, c, w⟩
      | some _ =>
        match c.client_ with
        | none => ⟨.crashed, c, w⟩
        | some _ =>
          match srv w .deregister_handler with
          | .error e => ⟨.thrown (.thrift e), c, w ++ [.deregister_handler]⟩
          | .ok _ =>
            match srv (w ++ [.deregister_handler]) .transport_close with
            | .error e =>
              ⟨.thrown (.thrift e), c, w ++ [.deregister_handler, .transport_close]⟩
            | .ok _ =>
              ⟨.returned (), { c with transport_ := some ⟨false⟩ },
                w ++ [.deregister_handler, .transport_close]⟩
    else ⟨.returned (), c, w⟩

/-- The destructor `~rpc_client()`, which calls `disconnect()`. -/
def destructor (srv : thrift_service) (c : rpc_client) (w : List rpc_event) : outcome Unit :=
  disconnect srv c w

/-- The method `connect(host, port)`.  The log line is not modelled. -/
def connect (srv : thrift_service) (host : String) (port : Int) (c : rpc_client)
    (w : List rpc_event) : outcome Unit :=
  let c1 : rpc_client :=
    { c with socket_ := some ⟨host, port⟩, transport_ := some ⟨false⟩,
             protocol_ := some (), client_ := some () }
  match srv w (.transport_open host port) with
  | .error e => ⟨.thrown (.thrift e), c1, w ++ [.transport_open host port]⟩
  | .ok _ =>
    let c2 : rpc_client := { c1 with transport_ := some ⟨true⟩ }
    match srv (w ++ [.transport_open host port]) .register_handler with
    | .error e =>
      ⟨.thrown (.thrift e), c2, w ++ [.transport_open host port, .register_handler]⟩
    | .ok _ => ⟨.returned (), c2, w ++ [.transport_open host port, .register_handler]⟩

/-- A call through the stub, `client_->request(args)`: the handle is
dereferenced, the request goes out, and the reply or the exception comes
back.  The object is not touched. -/
def stub_call (srv : thrift_service) (c : rpc_client) (w : List rpc_event)
    (e : rpc_event) : outcome (reply e) :=
  match c.client_ with
  | none => ⟨.crashed, c, w⟩
  | some _ =>
    match srv w e with
    | .error x => ⟨.thrown (.thrift x), c, w ++ [e]⟩
    | .ok v => ⟨.returned v, c, w ++ [e]⟩

/-- The method `create_table(table_name, schema, mode)`: the schema is
assigned first, the table id once the stub has returned. -/
def create_table (cv : rpc_type_conversions) (srv : thrift_service) (table_name : String)
    (schema : schema_t) (mode : storage_id) (c : rpc_client) (w : List rpc_event) :
    outcome Unit :=
  let c1 : rpc_client := { c with cur_schema_ := schema }
  let r := stub_call srv c1 w
    (.create_table table_name (cv.to_wire schema.columns) (cv.convert_mode mode))
  match r.result with
  | .returned id => ⟨.returned (), { r.self with cur_table_id_ := id }, r.wire⟩
  | .thrown e => ⟨.thrown e, r.self, r.wire⟩
  | .crashed => ⟨.crashed, r.self, r.wire⟩

/-- The method `set_current_table(table_name)`. -/
def set_current_table (cv : rpc_type_conversions) (srv : thrift_service)
    (table_name : String) (c : rpc_client) (w : List rpc_event) : outcome Unit :=
  let r := stub_call srv c w (.get_table_info table_name)
  match r.result with
  | .returned info =>
    ⟨.returned (),
      { r.self with cur_schema_ := ⟨cv.from_wire info.schema⟩, cur_table_id_ := info.table_id },
      r.wire⟩
  | .thrown e => ⟨.thrown e, r.self, r.wire⟩
  | .crashed => ⟨.crashed, r.self, r.wire⟩

/-- The method `remove_table()`. -/
def remove_table (srv : thrift_service) (c : rpc_client) (w : List rpc_event) :
    outcome Unit :=
  if c.cur_table_id_ = -1 then ⟨.thrown must_set_table, c, w⟩
  else
    let r := stub_call srv c w (.remove_table c.cur_table_id_)
    match r.result with
    | .returned _ => ⟨.returned (), { r.self with cur_table_id_ := -1 }, r.wire⟩
    | .thrown e => ⟨.thrown e, r.self, r.wire⟩
    | .crashed => ⟨.crashed, r.self, r.wire⟩

/-- The default argument `bucket_size = 1.0`. -/
def default_bucket_size : double := ⟨0x3FF0000000000000⟩

/-- The method `add_index(field_name, bucket_size)`. -/
def add_index (srv : thrift_service) (field_name : String) (bucket_size : double)
    (c : rpc_client) (w : List rpc_event) : outcome Unit :=
  if c.cur_table_id_ = -1 then ⟨.thrown must_set_table, c, w⟩
  else stub_call srv c w (.add_index c.cur_table_id_ field_name bucket_size)

/-- The method `remove_index(field_name)`. -/
def remove_index (srv : thrift_service) (field_name : String)
    (c : rpc_client) (w : List rpc_event) : outcome Unit :=
  if c.cur_table_id_ = -1 then ⟨.thrown must_set_table, c, w⟩
  else stub_call srv c w (.remove_index c.cur_table_id_ field_name)

/-- The method `add_filter(filter_name, filter_expr)`. -/
def add_filter (srv : thrift_service) (filter_name : String) (filter_expr : String)
    (c : rpc_client) (w : List rpc_event) : outcome Unit :=
  if c.cur_table_id_ = -1 then ⟨.thrown must_set_table, c, w⟩
  else stub_call srv c w (.add_filter c.cur_table_id_ filter_name filter_expr)

/-- The method `remove_filter(filter_name)`. -/
def remove_filter (srv : thrift_service) (filter_name : String)
    (c : rpc_client) (w : List rpc_event) : outcome Unit :=
  if c.cur_table_id_ = -1 then ⟨.thrown must_set_table, c, w⟩
  else stub_call srv c w (.remove_filter c.cur_table_id_ filter_name)

/-- The method `add_trigger(trigger_name, filter_name, trigger_expr)`. -/
def add_trigger (srv : thrift_service) (trigger_name : String) (filter_name : String)
    (trigger_expr : String) (c : rpc_client) (w : List rpc_event) : outcome Unit :=
  if c.cur_table_id_ = -1 then ⟨.thrown must_set_table, c, w⟩
  else stub_call srv c w (.add_trigger c.cur_table_id_ trigger_name filter_name trigger_expr)

/-- The method `remove_trigger(trigger_name)`. -/
def remove_trigger (srv : thrift_service) (trigger_name : String)
    (c : rpc_client) (w : List rpc_event) : outcome Unit :=
  if c.cur_table_id_ = -1 then ⟨.thrown must_set_table, c, w⟩
  else stub_call srv c w (.remove_trigger c.cur_table_id_ trigger_name)

/-- The decimal rendering `std::to_string` gives an unsigned length. -/
def to_string (n : Nat) : String := Nat.repr n

/-- The message of the record-size check of `write`. -/
def record_size_message (expected : Nat) (got : Nat) : String :=
  "Record size incorrect; expected=" ++ to_string expected ++ ", got=" ++ to_string got

/-- The method `write(record)`. -/
def write (srv : thrift_service) (record : bytes) (c : rpc_client) (w : List rpc_event) :
    outcome Unit :=
  if c.cur_table_id_ = -1 then ⟨.thrown must_set_table, c, w⟩
  else if record.length ≠ c.cur_schema_.record_size then
    ⟨.thrown (.illegal_state_exception
        (record_size_message c.cur_schema_.record_size record.length)), c, w⟩
  else stub_call srv c w (.append c.cur_table_id_ record)

/-- The method `read_batch(_return, offset, nrecords)`; the out-parameter is
the returned value. -/
def read_batch (srv : thrift_service) (offset : Int) (nrecords : Nat)
    (c : rpc_client) (w : List rpc_event) : outcome bytes :=
  if c.cur_table_id_ = -1 then ⟨.thrown must_set_table, c, w⟩
  else stub_call srv c w (.read c.cur_table_id_ offset nrecords)

/-- The method `read(_return, offset)`. -/
def read (srv : thrift_service) (offset : Int) (c : rpc_client) (w : List rpc_event) :
    outcome bytes :=
  read_batch srv offset 1 c w

/-- The method `adhoc_filter(filter_expr)`. -/
def adhoc_filter (srv : thrift_service) (filter_expr : String)
    (c : rpc_client) (w : List rpc_event) : outcome rpc_record_stream :=
  if c.cur_table_id_ = -1 then ⟨.thrown must_set_table, c, w⟩
  else
    let r := stub_call srv c w (.adhoc_filter c.cur_table_id_ filter_expr)
    match r.result with
    | .returned handle =>
      ⟨.returned ⟨r.self.cur_table_id_, r.self.cur_schema_, (), handle⟩, r.self, r.wire⟩
    | .thrown e => ⟨.thrown e, r.self, r.wire⟩
    | .crashed => ⟨.crashed, r.self, r.wire⟩

/-- The method `predef_filter(filter_name, begin_ms, end_ms)`. -/
def predef_filter (srv : thrift_service) (filter_name : String) (begin_ms : Int)
    (end_ms : Int) (c : rpc_client) (w : List rpc_event) : outcome rpc_record_stream :=
  if c.cur_table_id_ = -1 then ⟨.thrown must_set_table, c, w⟩
  else
    let r := stub_call srv c w (.predef_filter c.cur_table_id_ filter_name begin_ms end_ms)
    match r.result with
    | .returned handle =>
      ⟨.returned ⟨r.self.cur_table_id_, r.self.cur_schema_, (), handle⟩, r.self, r.wire⟩
    | .thrown e => ⟨.thrown e, r.self, r.wire⟩
    | .crashed => ⟨.crashed, r.self, r.wire⟩

/-- The method `combined_filter(filter_name, filter_expr, begin_ms, end_ms)`. -/
def combined_filter (srv : thrift_service) (filter_name : String) (filter_expr : String)
    (begin_ms : Int) (end_ms : Int) (c : rpc_client) (w : List rpc_event) :
    outcome rpc_record_stream :=
  if c.cur_table_id_ = -1 then ⟨.thrown must_set_table, c, w⟩
  else
    let r := stub_call srv c w
      (.combined_filter c.cur_table_id_ filter_name filter_expr begin_ms end_ms)
    match r.result with
    | .returned handle =>
      ⟨.returned ⟨r.self.cur_table_id_, r.self.cur_schema_, (), handle⟩, r.self, r.wire⟩
    | .thrown e => ⟨.thrown e, r.self, r.wire⟩
    | .crashed => ⟨.crashed, r.self, r.wire⟩

/-- The method `get_alerts(begin_ms, end_ms)`. -/
def get_alerts (srv : thrift_service) (begin_ms : Int) (end_ms : Int)
    (c : rpc_client) (w : List rpc_event) : outcome rpc_alert_stream :=
  if c.cur_table_id_ = -1 then ⟨.thrown must_set_table, c, w⟩
  else
    let r := stub_call srv c w (.alerts_by_time c.cur_table_id_ begin_ms end_ms)
    match r.result with
    | .returned handle => ⟨.returned ⟨r.self.cur_table_id_, (), handle⟩, r.self, r.wire⟩
    | .thrown e => ⟨.thrown e, r.self, r.wire⟩
    | .crashed => ⟨.crashed, r.self, r.wire⟩

/-- The method `num_records()`. -/
def num_records (srv : thrift_service) (c : rpc_client) (w : List rpc_event) :
    outcome Int :=
  if c.cur_table_id_ = -1 then ⟨.thrown must_set_table, c, w⟩
  else stub_call srv c w (.num_records c.cur_table_id_)

/-! ## Sessions: sequences of calls on one client -/

/-- A call a user of the class can make, with its arguments. -/
inductive invocation where
  | connect (host : String) (port : Int)
  | disconnect
  | create_table (table_name : String) (schema : schema_t) (mode : storage_id)
  | set_current_table (table_name : String)
  | remove_table
  | add_index (field_name : String) (bucket_size : double)
  | remove_index (field_name : String)
  | add_filter (filter_name : String) (filter_expr : String)
  | remove_filter (filter_name : String)
  | add_trigger (trigger_name : String) (filter_name : String) (trigger_expr : String)
  | remove_trigger (trigger_name : String)
  | write (record : bytes)
  | read (offset : Int)
  | read_batch (offset : Int) (nrecords : Nat)
  | adhoc_filter (filter_expr : String)
  | predef_filter (filter_name : String) (begin_ms : Int) (end_ms : Int)
  | combined_filter (filter_name : String) (filter_expr : String) (begin_ms : Int)
      (end_ms : Int)
  | get_alerts (begin_ms : Int) (end_ms : Int)
  | num_records
deriving DecidableEq, Repr

/-- The two calls that select a table. -/
def invocation.selects : invocation → Bool
  | .create_table _ _ _ => true
  | .set_current_table _ => true
  | _ => false

/-- The calls that work on the selected table. -/
def invocation.table_scoped : invocation → Bool
  | .connect _ _ => false
  | .disconnect => false
  | .create_table _ _ _ => false
  | .set_current_table _ => false
  | _ => true

/-- Forget the returned value of a finished call. -/
def outcome.void {α : Type} (r : outcome α) : outcome Unit :=
  match r.result with
  | .returned _ => ⟨.returned (), r.self, r.wire⟩
  | .thrown e => ⟨.thrown e, r.self, r.wire⟩
  | .crashed => ⟨.crashed, r.self, r.wire⟩

/-- Run one call on the client. -/
def invoke (cv : rpc_type_conversions) (srv : thrift_service) (k : invocation)
    (c : rpc_client) (w : List rpc_event) : outcome Unit :=
  match k with
  | .connect host port => connect srv host port c w
  | .disconnect => disconnect srv c w
  | .create_table n s m => create_table cv srv n s m c w
  | .set_current_table n => set_current_table cv srv n c w
  | .remove_table => remove_table srv c w
  | .add_index f b => add_index srv f b c w
  | .remove_index f => remove_index srv f c w
  | .add_filter n e => add_filter srv n e c w
  | .remove_filter n => remove_filter srv n c w
  | .add_trigger t f e => add_trigger srv t f e c w
  | .remove_trigger t => remove_trigger srv t c w
  | .write r => write srv r c w
  | .read o => (read srv o c w).void
  | .read_batch o n => (read_batch srv o n c w).void
  | .adhoc_filter e => (adhoc_filter srv e c w).void
  | .predef_filter n b e => (predef_filter srv n b e c w).void
  | .combined_filter n x b e => (combined_filter srv n x b e c w).void
  | .get_alerts b e => (get_alerts srv b e c w).void
  | .num_records => (num_records srv c w).void

/-- Run a sequence of calls: a caller goes on after an exception, nothing
runs after a crash.  The result is the object and the wire history after the
last call. -/
def run (cv : rpc_type_conversions) (srv : thrift_service) :
    List invocation → rpc_client → List rpc_event → Option (rpc_client × List rpc_event)
  | [], c, w => some (c, w)
  | k :: ks, c, w =>
    let r := invoke cv srv k c w
    match r.result with
    | .crashed => none
    | _ => run cv srv ks r.self r.wire

/-- The states a client object can be in: the default-constructed object with
nothing on the wire, and what any call that did not crash leaves behind. -/
inductive reachable (cv : rpc_type_conversions) (srv : thrift_service) :
    rpc_client → List rpc_event → Prop where
  | fresh : reachable cv srv rpc_client.init []
  | step (k : invocation) (c : rpc_client) (w : List rpc_event) :
      reachable cv srv c w → (invoke cv srv k c w).result ≠ .crashed →
      reachable cv srv (invoke cv srv k c w).self (invoke cv srv k c w).wire

/-- The handles are set together, and a table is selected only through the
stub. -/
def handles_ok (c : rpc_client) : Prop :=
  (c.cur_table_id_ ≠ -1 → c.client_ ≠ none) ∧
  (c.transport_ ≠ none → c.socket_ ≠ none ∧ c.client_ ≠ none)

/-- Whether a request is a fetch of a further page of a cursor. -/
def rpc_event.is_next_page : rpc_event → Bool
  | .next_page _ _ => true
  | _ => false

/-- The requests a call added to the wire history `w`. -/
def issued (w : List rpc_event) (after : List rpc_event) : List rpc_event :=
  after.drop w.length

/-- The text `sub` occurs in the text `msg`. -/
def occurs_in (sub : String) (msg : String) : Prop :=
  sub.data <:+: msg.data

instance (sub msg : String) : Decidable (occurs_in sub msg) := by
  unfold occurs_in; infer_instance

/-! ## Concrete services and sessions used as examples -/

/-- The schema of the table `events`: `ts : int64`, `value : double`. -/
def events_schema : schema_t :=
  ⟨[⟨"ts", 1, 8⟩, ⟨"value", 2, 8⟩]⟩

/-- Field-by-field conversions, lossless for name, type and order. -/
def plain_conversions : rpc_type_conversions :=
  { to_wire := fun cols => cols.map fun col => ⟨col.type_id, col.size, col.name⟩
    from_wire := fun cols => cols.map fun col => ⟨col.name, col.type_id, col.type_size⟩
    convert_mode := fun m => ⟨m.id⟩ }

/-- A service that accepts every request; a second `create_table` is refused
because the table exists already. -/
def events_service : thrift_service
  | _, .transport_open _ _ => .ok ()
  | _, .transport_close => .ok ()
  | _, .register_handler => .ok ()
  | _, .deregister_handler => .ok ()
  | h, .create_table _ _ _ =>
    if h.any (fun e => match e with | .create_table _ _ _ => true | _ => false)
    then .error ⟨"table already exists"⟩ else .ok 7
  | _, .get_table_info _ => .ok ⟨7, [⟨1, 8, "ts"⟩, ⟨2, 8, "value"⟩]⟩
  | _, .remove_table _ => .ok ()
  | _, .add_index _ _ _ => .ok ()
  | _, .remove_index _ _ => .ok ()
  | _, .add_filter _ _ _ => .ok ()
  | _, .remove_filter _ _ => .ok ()
  | _, .add_trigger _ _ _ _ => .ok ()
  | _, .remove_trigger _ _ => .ok ()
  | _, .append _ _ => .ok ()
  | _, .read _ _ _ => .ok []
  | _, .adhoc_filter _ _ => .ok ⟨41⟩
  | _, .predef_filter _ _ _ _ => .ok ⟨42⟩
  | _, .combined_filter _ _ _ _ _ => .ok ⟨43⟩
  | _, .alerts_by_time _ _ _ => .ok ⟨44⟩
  | _, .num_records _ => .ok 0
  | _, .next_page _ h => .ok h

/-- A service whose transport opens and registers, and which then loses the
connection: every later request raises a thrift exception. -/
def dropping_service : thrift_service
  | _, .transport_open _ _ => .ok ()
  | _, .register_handler => .ok ()
  | _, _ => .error ⟨"connection reset"⟩

/-- The wire history after `connect("localhost", 9090)` has gone through. -/
def connected_wire : List rpc_event :=
  [.transport_open "localhost" 9090, .register_handler]

/-- The client after `connect("localhost", 9090)` on a fresh object. -/
def connected_client : rpc_client :=
  { rpc_client.init with
    socket_ := some ⟨"localhost", 9090⟩, transport_ := some ⟨true⟩,
    protocol_ := some (), client_ := some () }

/-- The wire history after `connect` and `create_table("events", ...)`. -/
def events_wire : List rpc_event :=
  connected_wire ++ [.create_table "events" [⟨1, 8, "ts"⟩, ⟨2, 8, "value"⟩] ⟨0⟩]

/-- The client after `connect` and `create_table("events", ...)` against
`events_service`: table 7 with the `events` schema. -/
def events_client : rpc_client :=
  { connected_client with cur_table_id_ := 7, cur_schema_ := events_schema }

/-- A service like `events_service` whose `create_table` answers the id `-1`. -/
def sentinel_service : thrift_service
  | _, .create_table _ _ _ => .ok (-1)
  | h, e => events_service h e

/-- A one-column schema of record size 4. -/
def other_schema : schema_t :=
  ⟨[⟨"count", 3, 4⟩]⟩

/-! ## Shared lemmas -/

/-- A stub call never changes the object. -/
theorem stub_call_self (srv : thrift_service) (c : rpc_client) (w : List rpc_event)
    (e : rpc_event) : (stub_call srv c w e).self = c := by
  unfold stub_call
  split
  · rfl
  · split <;> rfl

/-- With a stub in place a stub call issues its request and hands back what
the service answers. -/
theorem stub_call_connected (srv : thrift_service) (c : rpc_client) (w : List rpc_event)
    (e : rpc_event) (h : c.client_ ≠ none) :
    stub_call srv c w e =
      ⟨match srv w e with
        | .ok v => .returned v
        | .error x => .thrown (.thrift x), c, w ++ [e]⟩ := by
  unfold stub_call
  cases hc : c.client_ with
  | none => exact absurd hc h
  | some u => cases srv w e <;> rfl

/-- Forgetting the value keeps the object. -/
theorem void_self {α : Type} (r : outcome α) : r.void.self = r.self := by
  unfold outcome.void; split <;> rfl

/-- Forgetting the value keeps the wire history. -/
theorem void_wire {α : Type} (r : outcome α) : r.void.wire = r.wire := by
  unfold outcome.void; split <;> rfl

/-- The stub call either crashes on an empty handle, or issues the request. -/
theorem stub_call_cases (srv : thrift_service) (c : rpc_client) (w : List rpc_event)
    (e : rpc_event) :
    (c.client_ = none ∧ stub_call srv c w e = ⟨.crashed, c, w⟩) ∨
    (c.client_ ≠ none ∧ ∃ res, res ≠ .crashed ∧ stub_call srv c w e = ⟨res, c, w ++ [e]⟩) := by
  cases hc : c.client_ with
  | none => left; simp [stub_call, hc]
  | some u =>
    right
    refine ⟨by simp, ?_⟩
    rw [stub_call_connected srv c w e (by simp [hc])]
    cases srv w e with
    | error x => exact ⟨_, by simp, rfl⟩
    | ok v => exact ⟨_, by simp, rfl⟩

/-- Apart from `remove_table`, a table-scoped call never changes the object. -/
theorem invoke_self (cv : rpc_type_conversions) (srv : thrift_service)
    (k : invocation) (c : rpc_client) (w : List rpc_event)
    (hk : k.table_scoped = true) (hr : k ≠ .remove_table) :
    (invoke cv srv k c w).self = c := by
  cases k <;> simp [invocation.table_scoped] at hk hr <;>
    simp only [invoke, void_self, add_index, remove_index, add_filter, remove_filter,
      add_trigger, remove_trigger, write, read, read_batch, adhoc_filter, predef_filter,
      combined_filter, get_alerts, num_records] <;>
    repeat (first | rfl | exact stub_call_self _ _ _ _ | split)

/-- What `remove_table` leaves behind. -/
theorem remove_table_self (srv : thrift_service) (c : rpc_client) (w : List rpc_event) :
    (remove_table srv c w).self = c ∨
    (c.client_ ≠ none ∧ (remove_table srv c w).self = { c with cur_table_id_ := -1 }) := by
  unfold remove_table
  split
  · left; rfl
  · rcases stub_call_cases srv c w (.remove_table c.cur_table_id_) with ⟨_, h⟩ | ⟨hc, res, _, h⟩
    · left; simp [h]
    · rw [h]
      cases res with
      | returned v => right; exact ⟨hc, rfl⟩
      | thrown e => left; rfl
      | crashed => left; rfl

/-- What `disconnect` leaves behind. -/
theorem disconnect_self (srv : thrift_service) (c : rpc_client) (w : List rpc_event) :
    (disconnect srv c w).self = c ∨
    (c.socket_ ≠ none ∧ c.client_ ≠ none ∧
      (disconnect srv c w).self = { c with transport_ := some ⟨false⟩ }) := by
  unfold disconnect
  split
  · left; rfl
  · split
    · split
      · left; rfl
      · split
        · left; rfl
        · split
          · left; rfl
          · split
            · left; rfl
            · right; simp [*]
    · left; rfl

/-- Every call keeps the handles consistent. -/
theorem invoke_handles_ok (cv : rpc_type_conversions) (srv : thrift_service)
    (k : invocation) (c : rpc_client) (w : List rpc_event) (h : handles_ok c) :
    handles_ok (invoke cv srv k c w).self := by
  cases k with
  | connect host port =>
    simp only [invoke, connect]
    split
    · simp [handles_ok]
    · split <;> simp [handles_ok]
  | disconnect =>
    rcases disconnect_self srv c w with h1 | ⟨hs, hc, h1⟩
    · simp only [invoke, h1]; exact h
    · simp only [invoke, h1]
      exact ⟨fun _ => hc, fun _ => ⟨hs, hc⟩⟩
  | create_table n sch m =>
    simp only [invoke, create_table]
    rcases stub_call_cases srv { c with cur_schema_ := sch } w
      (.create_table n (cv.to_wire sch.columns) (cv.convert_mode m))
      with ⟨_, e⟩ | ⟨hc, res, _, e⟩
    · rw [e]; exact h
    · rw [e]
      cases res with
      | returned v => exact ⟨fun _ => hc, h.2⟩
      | thrown x => exact h
      | crashed => exact h
  | set_current_table n =>
    simp only [invoke, set_current_table]
    rcases stub_call_cases srv c w (.get_table_info n) with ⟨_, e⟩ | ⟨hc, res, _, e⟩
    · rw [e]; exact h
    · rw [e]
      cases res with
      | returned v => exact ⟨fun _ => hc, h.2⟩
      | thrown x => exact h
      | crashed => exact h
  | remove_table =>
    rcases remove_table_self srv c w with h1 | ⟨hc, h1⟩
    · simp only [invoke, h1]; exact h
    · simp only [invoke, h1]
      exact ⟨fun _ => hc, h.2⟩
  | _ => rw [invoke_self] <;> first | exact h | rfl | simp

/-- Every reachable client has consistent handles. -/
theorem reachable_handles_ok (cv : rpc_type_conversions) (srv : thrift_service)
    (c : rpc_client) (w : List rpc_event) (h : reachable cv srv c w) : handles_ok c := by
  induction h with
  | fresh => simp [handles_ok, rpc_client.init]
  | step k c w _ _ ih => exact invoke_handles_ok cv srv k c w ih

/-- A reachable client with a table selected holds a stub. -/
theorem reachable_selected_connected (cv : rpc_type_conversions) (srv : thrift_service)
    (c : rpc_client) (w : List rpc_event) (h : reachable cv srv c w)
    (hsel : c.cur_table_id_ ≠ -1) : c.client_ ≠ none :=
  (reachable_handles_ok cv srv c w h).1 hsel

/-- A call that completes with a known outcome and does not crash leads from a
reachable state to a reachable state. -/
theorem reachable_invoke (cv : rpc_type_conversions) (srv : thrift_service)
    (k : invocation) (c c2 : rpc_client) (w w2 : List rpc_event) (res : completion Unit)
    (h : reachable cv srv c w) (e : invoke cv srv k c w = ⟨res, c2, w2⟩)
    (hres : res ≠ .crashed) : reachable cv srv c2 w2 := by
  have hs := reachable.step k c w h (by rw [e]; exact hres)
  rw [e] at hs
  exact hs

/-- The connected example client is reachable. -/
theorem connected_client_reachable :
    reachable plain_conversions events_service connected_client connected_wire :=
  reachable_invoke plain_conversions events_service (.connect "localhost" 9090)
    rpc_client.init connected_client [] connected_wire (.returned ())
    reachable.fresh (by decide) (by decide)

/-- The example client with table `events` selected is reachable. -/
theorem events_client_reachable :
    reachable plain_conversions events_service events_client events_wire :=
  reachable_invoke plain_conversions events_service
    (.create_table "events" events_schema ⟨0⟩)
    connected_client events_client connected_wire events_wire (.returned ())
    connected_client_reachable (by decide) (by decide)

/-! ## The precondition gate -/

/-- Claim C1: with no table selected (`cur_table_id_ = -1`), each of the fifteen
table-scoped methods throws the illegal-state exception "Must set table first",
leaves the object as it was and puts nothing on the wire, whatever the
arguments and whatever the service would answer. -/
theorem unselected_calls_fail (srv : thrift_service) (c : rpc_client) (w : List rpc_event)
    (h : c.cur_table_id_ = -1) :
    remove_table srv c w
        = ⟨.thrown (.illegal_state_exception "Must set table first"), c, w⟩ ∧
    (∀ f b, add_index srv f b c w
        = ⟨.thrown (.illegal_state_exception "Must set table first"), c, w⟩) ∧
    (∀ f, remove_index srv f c w
        = ⟨.thrown (.illegal_state_exception "Must set table first"), c, w⟩) ∧
    (∀ n e, add_filter srv n e c w
        = ⟨.thrown (.illegal_state_exception "Must set table first"), c, w⟩) ∧
    (∀ n, remove_filter srv n c w
        = ⟨.thrown (.illegal_state_exception "Must set table first"), c, w⟩) ∧
    (∀ t f e, add_trigger srv t f e c w
        = ⟨.thrown (.illegal_state_exception "Must set table first"), c, w⟩) ∧
    (∀ t, remove_trigger srv t c w
        = ⟨.thrown (.illegal_state_exception "Must set table first"), c, w⟩) ∧
    (∀ r, write srv r c w
        = ⟨.thrown (.illegal_state_exception "Must set table first"), c, w⟩) ∧
    (∀ o, read srv o c w
        = ⟨.thrown (.illegal_state_exception "Must set table first"), c, w⟩) ∧
    (∀ o n, read_batch srv o n c w
        = ⟨.thrown (.illegal_state_exception "Must set table first"), c, w⟩) ∧
    (∀ e, adhoc_filter srv e c w
        = ⟨.thrown (.illegal_state_exception "Must set table first"), c, w⟩) ∧
    (∀ n b e, predef_filter srv n b e c w
        = ⟨.thrown (.illegal_state_exception "Must set table first"), c, w⟩) ∧
    (∀ n x b e, combined_filter srv n x b e c w
        = ⟨.thrown (.illegal_state_exception "Must set table first"), c, w⟩) ∧
    (∀ b e, get_alerts srv b e c w
        = ⟨.thrown (.illegal_state_exception "Must set table first"), c, w⟩) ∧
    num_records srv c w
        = ⟨.thrown (.illegal_state_exception "Must set table first"), c, w⟩ := by
  simp [remove_table, add_index, remove_index, add_filter, remove_filter, add_trigger,
    remove_trigger, write, read, read_batch, adhoc_filter, predef_filter, combined_filter,
    get_alerts, num_records, must_set_table, h]

/-- Claim C1 at the freshly constructed client with an empty wire history,
for `write` of a 16-byte record. -/
theorem unselected_calls_fail_witness :
    rpc_client.init.cur_table_id_ = -1 ∧
    write events_service (List.replicate 16 0) rpc_client.init []
      = ⟨.thrown (.illegal_state_exception "Must set table first"), rpc_client.init, []⟩ :=
  ⟨rfl, (unselected_calls_fail events_service rpc_client.init [] rfl).2.2.2.2.2.2.2.1 _⟩

/-! ## Writing a record -/

/-- The size-check message holds the expected size and the actual size in
decimal. -/
theorem record_size_message_occurs (expected got : Nat) :
    occurs_in ("expected=" ++ to_string expected) (record_size_message expected got) ∧
    occurs_in ("got=" ++ to_string got) (record_size_message expected got) := by
  unfold occurs_in record_size_message
  constructor
  · refine ⟨"Record size incorrect; ".data, (", got=" ++ to_string got).data, ?_⟩
    simp [String.data_append]
  · refine ⟨("Record size incorrect; expected=" ++ to_string expected ++ ", ").data, [], ?_⟩
    simp [String.data_append]

/-- Claim C2: with a table selected, a record whose length differs from
`record_size()` makes `write` throw an illegal-state exception whose message
contains "expected=" followed by the record size in decimal and "got=" followed
by the record length in decimal; the object is unchanged and nothing is put on
the wire. -/
theorem write_wrong_size (srv : thrift_service) (record : bytes) (c : rpc_client)
    (w : List rpc_event) (hsel : c.cur_table_id_ ≠ -1)
    (hlen : record.length ≠ c.cur_schema_.record_size) :
    ∃ msg, write srv record c w = ⟨.thrown (.illegal_state_exception msg), c, w⟩ ∧
      occurs_in ("expected=" ++ Nat.repr c.cur_schema_.record_size) msg ∧
      occurs_in ("got=" ++ Nat.repr record.length) msg ∧
      issued w (write srv record c w).wire = [] := by
  refine ⟨record_size_message c.cur_schema_.record_size record.length, ?_,
    (record_size_message_occurs _ _).1, (record_size_message_occurs _ _).2, ?_⟩
  · simp [write, hsel, hlen]
  · simp [write, hsel, hlen, issued]

/-- Claim C2 on the table `events` (record size 16) with a 10-byte record: the
message contains "expected=16" and "got=10". -/
theorem write_wrong_size_witness :
    events_client.cur_table_id_ ≠ -1 ∧
    (List.replicate 10 (0 : Fin 256)).length ≠ events_client.cur_schema_.record_size ∧
    events_client.cur_schema_.record_size = 16 ∧
    ∃ msg, write events_service (List.replicate 10 0) events_client events_wire
        = ⟨.thrown (.illegal_state_exception msg), events_client, events_wire⟩ ∧
      occurs_in "expected=16" msg ∧ occurs_in "got=10" msg ∧
      issued events_wire
        (write events_service (List.replicate 10 0) events_client events_wire).wire = [] :=
  ⟨by decide, by decide, by decide,
    write_wrong_size events_service (List.replicate 10 0) events_client events_wire
      (by decide) (by decide)⟩

/-- Claim C10: on a reachable client with a table selected, a record of exactly
`record_size()` bytes passes both local checks: `write` issues the single
request `append(cur_table_id_, record)` with the record as given, completes the
way the service answers (never with an illegal-state exception), and leaves
the whole object, table context and unused batch builder included, as it
was. -/
theorem write_forwards (cv : rpc_type_conversions) (srv : thrift_service) (record : bytes)
    (c : rpc_client) (w : List rpc_event) (hr : reachable cv srv c w)
    (hsel : c.cur_table_id_ ≠ -1) (hlen : record.length = c.cur_schema_.record_size) :
    write srv record c w =
      ⟨match srv w (.append c.cur_table_id_ record) with
        | .ok _ => .returned ()
        | .error x => .thrown (.thrift x),
       c, w ++ [.append c.cur_table_id_ record]⟩ ∧
    issued w (write srv record c w).wire = [.append c.cur_table_id_ record] ∧
    (∀ msg, (write srv record c w).result ≠ .thrown (.illegal_state_exception msg)) := by
  have hc := reachable_selected_connected cv srv c w hr hsel
  have e : write srv record c w =
      ⟨match srv w (.append c.cur_table_id_ record) with
        | .ok _ => .returned ()
        | .error x => .thrown (.thrift x),
       c, w ++ [.append c.cur_table_id_ record]⟩ := by
    simp only [write, hsel, hlen, if_false, ne_eq, not_true_eq_false]
    rw [stub_call_connected srv c w _ hc]
    cases srv w (.append c.cur_table_id_ record) <;> rfl
  refine ⟨e, ?_, ?_⟩
  · rw [e]; simp [issued]
  · intro msg
    rw [e]
    cases srv w (.append c.cur_table_id_ record) <;> simp

/-- Claim C10 on the table `events`: a 16-byte record goes out as one
`append(7, record)`. -/
theorem write_forwards_witness :
    events_client.cur_table_id_ ≠ -1 ∧
    (List.replicate 16 (0 : Fin 256)).length = events_client.cur_schema_.record_size ∧
    write events_service (List.replicate 16 0) events_client events_wire =
      ⟨.returned (), events_client, events_wire ++ [.append 7 (List.replicate 16 0)]⟩ :=
  ⟨by decide, by decide,
    (write_forwards plain_conversions events_service (List.replicate 16 0) events_client
      events_wire events_client_reachable (by decide) (by decide)).1⟩

/-! ## Selecting a table -/

/-- Claim C4, as amended: when the stub is in place and the remote
`create_table` answers the id `id`, `create_table(name, schema, mode)` returns,
the one request it issued carries the name, the wire-converted columns and the
wire-converted mode, the stored schema is the input schema and the stored table
id is `id`; a table is then selected exactly when `id` is not `-1`. -/
theorem create_table_stores (cv : rpc_type_conversions) (srv : thrift_service)
    (table_name : String) (schema : schema_t) (mode : storage_id) (c : rpc_client)
    (w : List rpc_event) (id : Int) (hc : c.client_ ≠ none)
    (hid : srv w (.create_table table_name (cv.to_wire schema.columns) (cv.convert_mode mode))
      = .ok id) :
    create_table cv srv table_name schema mode c w =
      ⟨.returned (), { c with cur_schema_ := schema, cur_table_id_ := id },
       w ++ [.create_table table_name (cv.to_wire schema.columns) (cv.convert_mode mode)]⟩ ∧
    (create_table cv srv table_name schema mode c w).self.cur_schema_ = schema ∧
    (create_table cv srv table_name schema mode c w).self.cur_table_id_ = id ∧
    ((create_table cv srv table_name schema mode c w).self.cur_table_id_ ≠ -1 ↔ id ≠ -1) := by
  have e : create_table cv srv table_name schema mode c w =
      ⟨.returned (), { c with cur_schema_ := schema, cur_table_id_ := id },
       w ++ [.create_table table_name (cv.to_wire schema.columns)
         (cv.convert_mode mode)]⟩ := by
    unfold create_table
    simp only []
    rw [stub_call_connected srv { c with cur_schema_ := schema } w _ hc, hid]
  rw [e]
  simp

/-- Claim C4, as amended, on the connected example client: table 7 with the
`events` schema. -/
theorem create_table_stores_witness :
    connected_client.client_ ≠ none ∧
    events_service connected_wire
      (.create_table "events" (plain_conversions.to_wire events_schema.columns)
        (plain_conversions.convert_mode ⟨0⟩)) = .ok 7 ∧
    create_table plain_conversions events_service "events" events_schema ⟨0⟩
      connected_client connected_wire = ⟨.returned (), events_client, events_wire⟩ :=
  ⟨by decide, rfl,
    (create_table_stores plain_conversions events_service "events" events_schema ⟨0⟩
      connected_client connected_wire 7 (by decide) rfl).1⟩

/-- Claim C4 as stated fails: the remote `create_table` answers successfully
with the id `-1`, `create_table` returns, and the stored table id is the
sentinel, so no table is selected. -/
theorem create_table_sentinel_reply :
    sentinel_service connected_wire
      (.create_table "events" (plain_conversions.to_wire events_schema.columns)
        (plain_conversions.convert_mode ⟨0⟩)) = .ok (-1) ∧
    (create_table plain_conversions sentinel_service "events" events_schema ⟨0⟩
      connected_client connected_wire).result = .returned () ∧
    ¬ (create_table plain_conversions sentinel_service "events" events_schema ⟨0⟩
      connected_client connected_wire).self.cur_table_id_ ≠ -1 :=
  ⟨rfl, by decide, by decide⟩

/-- Claim C9: when the stub is in place and the remote `get_table_info(name)`
answers `info`, `set_current_table(name)` returns, has issued exactly that one
request, and stores `info.table_id` and the local form of `info.schema`; the
prior table selection plays no part. -/
theorem set_current_table_stores (cv : rpc_type_conversions) (srv : thrift_service)
    (table_name : String) (c : rpc_client) (w : List rpc_event) (info : rpc_table_info)
    (hc : c.client_ ≠ none) (hinfo : srv w (.get_table_info table_name) = .ok info) :
    set_current_table cv srv table_name c w =
      ⟨.returned (),
       { c with cur_schema_ := ⟨cv.from_wire info.schema⟩, cur_table_id_ := info.table_id },
       w ++ [.get_table_info table_name]⟩ ∧
    (set_current_table cv srv table_name c w).self.cur_table_id_ = info.table_id ∧
    (set_current_table cv srv table_name c w).self.cur_schema_ = ⟨cv.from_wire info.schema⟩ ∧
    issued w (set_current_table cv srv table_name c w).wire
      = [.get_table_info table_name] := by
  have e : set_current_table cv srv table_name c w =
      ⟨.returned (),
       { c with cur_schema_ := ⟨cv.from_wire info.schema⟩, cur_table_id_ := info.table_id },
       w ++ [.get_table_info table_name]⟩ := by
    unfold set_current_table
    simp only []
    rw [stub_call_connected srv c w _ hc, hinfo]
  rw [e]
  simp [issued]

/-- Claim C9 on the connected example client, which has no table selected:
`set_current_table("events")` selects table 7 with the `events` schema. -/
theorem set_current_table_stores_witness :
    connected_client.client_ ≠ none ∧
    connected_client.cur_table_id_ = -1 ∧
    events_service connected_wire (.get_table_info "events")
      = .ok ⟨7, [⟨1, 8, "ts"⟩, ⟨2, 8, "value"⟩]⟩ ∧
    set_current_table plain_conversions events_service "events" connected_client
      connected_wire
      = ⟨.returned (), events_client, connected_wire ++ [.get_table_info "events"]⟩ :=
  ⟨by decide, by decide, rfl,
    (set_current_table_stores plain_conversions events_service "events" connected_client
      connected_wire ⟨7, [⟨1, 8, "ts"⟩, ⟨2, 8, "value"⟩]⟩ (by decide) rfl).1⟩

/-! ## Opening a query -/

/-- Claim C8: on a reachable client with a table selected, each of
`adhoc_filter`, `predef_filter`, `combined_filter` and `get_alerts` issues
exactly one request, the matching open call with the current table id and the
arguments in order, and no next-page request; when the service answers a
handle the stream returned holds the current table id, that handle and, for
the three record openers, the current schema; the object is unchanged. -/
theorem openers_issue_one_call (cv : rpc_type_conversions) (srv : thrift_service)
    (c : rpc_client) (w : List rpc_event) (hr : reachable cv srv c w)
    (hsel : c.cur_table_id_ ≠ -1) :
    (∀ e, adhoc_filter srv e c w =
      ⟨match srv w (.adhoc_filter c.cur_table_id_ e) with
        | .ok h => .returned ⟨c.cur_table_id_, c.cur_schema_, (), h⟩
        | .error x => .thrown (.thrift x),
       c, w ++ [.adhoc_filter c.cur_table_id_ e]⟩) ∧
    (∀ n b e, predef_filter srv n b e c w =
      ⟨match srv w (.predef_filter c.cur_table_id_ n b e) with
        | .ok h => .returned ⟨c.cur_table_id_, c.cur_schema_, (), h⟩
        | .error x => .thrown (.thrift x),
       c, w ++ [.predef_filter c.cur_table_id_ n b e]⟩) ∧
    (∀ n x b e, combined_filter srv n x b e c w =
      ⟨match srv w (.combined_filter c.cur_table_id_ n x b e) with
        | .ok h => .returned ⟨c.cur_table_id_, c.cur_schema_, (), h⟩
        | .error x => .thrown (.thrift x),
       c, w ++ [.combined_filter c.cur_table_id_ n x b e]⟩) ∧
    (∀ b e, get_alerts srv b e c w =
      ⟨match srv w (.alerts_by_time c.cur_table_id_ b e) with
        | .ok h => .returned ⟨c.cur_table_id_, (), h⟩
        | .error x => .thrown (.thrift x),
       c, w ++ [.alerts_by_time c.cur_table_id_ b e]⟩) ∧
    (∀ e, (issued w (adhoc_filter srv e c w).wire).countP rpc_event.is_next_page = 0) ∧
    (∀ n b e,
      (issued w (predef_filter srv n b e c w).wire).countP rpc_event.is_next_page = 0) ∧
    (∀ n x b e,
      (issued w (combined_filter srv n x b e c w).wire).countP rpc_event.is_next_page = 0) ∧
    (∀ b e, (issued w (get_alerts srv b e c w).wire).countP rpc_event.is_next_page = 0) := by
  have hc := reachable_selected_connected cv srv c w hr hsel
  have h1 : ∀ e, adhoc_filter srv e c w =
      ⟨match srv w (.adhoc_filter c.cur_table_id_ e) with
        | .ok h => .returned ⟨c.cur_table_id_, c.cur_schema_, (), h⟩
        | .error x => .thrown (.thrift x),
       c, w ++ [.adhoc_filter c.cur_table_id_ e]⟩ := by
    intro e
    simp only [adhoc_filter, hsel, if_false]
    rw [stub_call_connected srv c w _ hc]
    cases srv w (.adhoc_filter c.cur_table_id_ e) <;> rfl
  have h2 : ∀ n b e, predef_filter srv n b e c w =
      ⟨match srv w (.predef_filter c.cur_table_id_ n b e) with
        | .ok h => .returned ⟨c.cur_table_id_, c.cur_schema_, (), h⟩
        | .error x => .thrown (.thrift x),
       c, w ++ [.predef_filter c.cur_table_id_ n b e]⟩ := by
    intro n b e
    simp only [predef_filter, hsel, if_false]
    rw [stub_call_connected srv c w _ hc]
    cases srv w (.predef_filter c.cur_table_id_ n b e) <;> rfl
  have h3 : ∀ n x b e, combined_filter srv n x b e c w =
      ⟨match srv w (.combined_filter c.cur_table_id_ n x b e) with
        | .ok h => .returned ⟨c.cur_table_id_, c.cur_schema_, (), h⟩
        | .error x => .thrown (.thrift x),
       c, w ++ [.combined_filter c.cur_table_id_ n x b e]⟩ := by
    intro n x b e
    simp only [combined_filter, hsel, if_false]
    rw [stub_call_connected srv c w _ hc]
    cases srv w (.combined_filter c.cur_table_id_ n x b e) <;> rfl
  have h4 : ∀ b e, get_alerts srv b e c w =
      ⟨match srv w (.alerts_by_time c.cur_table_id_ b e) with
        | .ok h => .returned ⟨c.cur_table_id_, (), h⟩
        | .error x => .thrown (.thrift x),
       c, w ++ [.alerts_by_time c.cur_table_id_ b e]⟩ := by
    intro b e
    simp only [get_alerts, hsel, if_false]
    rw [stub_call_connected srv c w _ hc]
    cases srv w (.alerts_by_time c.cur_table_id_ b e) <;> rfl
  refine ⟨h1, h2, h3, h4, ?_, ?_, ?_, ?_⟩
  · intro e; rw [h1]; simp [issued, rpc_event.is_next_page]
  · intro n b e; rw [h2]; simp [issued, rpc_event.is_next_page]
  · intro n x b e; rw [h3]; simp [issued, rpc_event.is_next_page]
  · intro b e; rw [h4]; simp [issued, rpc_event.is_next_page]

/-- Claim C8 on the table `events`: `predef_filter("high_value", 1000, 2000)`
issues the one open call and returns the stream over handle 42. -/
theorem openers_issue_one_call_witness :
    events_client.cur_table_id_ ≠ -1 ∧
    predef_filter events_service "high_value" 1000 2000 events_client events_wire =
      ⟨.returned ⟨7, events_schema, (), ⟨42⟩⟩, events_client,
       events_wire ++ [.predef_filter 7 "high_value" 1000 2000]⟩ :=
  ⟨by decide,
    (openers_issue_one_call plain_conversions events_service events_client events_wire
      events_client_reachable (by decide)).2.1 "high_value" 1000 2000⟩

/-- With no table selected, every table-scoped call throws at the gate. -/
theorem invoke_unselected (cv : rpc_type_conversions) (srv : thrift_service)
    (k : invocation) (c : rpc_client) (w : List rpc_event)
    (h : c.cur_table_id_ = -1) (hk : k.table_scoped = true) :
    invoke cv srv k c w
      = ⟨.thrown (.illegal_state_exception "Must set table first"), c, w⟩ := by
  cases k <;> simp [invocation.table_scoped] at hk <;>
    simp [invoke, outcome.void, remove_table, add_index, remove_index, add_filter,
      remove_filter, add_trigger, remove_trigger, write, read, read_batch, adhoc_filter,
      predef_filter, combined_filter, get_alerts, num_records, must_set_table, h]

/-- What `connect` leaves in the table context. -/
theorem connect_context (srv : thrift_service) (host : String) (port : Int)
    (c : rpc_client) (w : List rpc_event) :
    (connect srv host port c w).self.cur_table_id_ = c.cur_table_id_ ∧
    (connect srv host port c w).self.cur_schema_ = c.cur_schema_ := by
  unfold connect
  split
  · exact ⟨rfl, rfl⟩
  · split <;> exact ⟨rfl, rfl⟩

/-- What `disconnect` leaves in the table context. -/
theorem disconnect_context (srv : thrift_service) (c : rpc_client) (w : List rpc_event) :
    (disconnect srv c w).self.cur_table_id_ = c.cur_table_id_ ∧
    (disconnect srv c w).self.cur_schema_ = c.cur_schema_ := by
  rcases disconnect_self srv c w with h | ⟨_, _, h⟩ <;> rw [h] <;> exact ⟨rfl, rfl⟩

/-- A call other than `create_table` and `set_current_table` leaves an
unselected client unselected. -/
theorem invoke_keeps_unselected (cv : rpc_type_conversions) (srv : thrift_service)
    (k : invocation) (c : rpc_client) (w : List rpc_event)
    (h : c.cur_table_id_ = -1) (hk : k.selects = false) :
    (invoke cv srv k c w).self.cur_table_id_ = -1 := by
  by_cases hs : k.table_scoped = true
  · rw [invoke_unselected cv srv k c w h hs]; exact h
  · cases k <;> simp [invocation.table_scoped, invocation.selects] at hs hk
    · rw [invoke, (connect_context srv _ _ c w).1]; exact h
    · rw [invoke, (disconnect_context srv c w).1]; exact h

/-- After any run of calls other than `create_table` and `set_current_table`,
an unselected client is still unselected. -/
theorem run_keeps_unselected (cv : rpc_type_conversions) (srv : thrift_service)
    (ks : List invocation) :
    ∀ (c : rpc_client) (w : List rpc_event) (c2 : rpc_client) (w2 : List rpc_event),
      c.cur_table_id_ = -1 → (∀ k ∈ ks, k.selects = false) →
      run cv srv ks c w = some (c2, w2) → c2.cur_table_id_ = -1 := by
  induction ks with
  | nil =>
    intro c w c2 w2 h _ hrun
    simp only [run, Option.some.injEq, Prod.mk.injEq] at hrun
    rw [← hrun.1]; exact h
  | cons k ks ih =>
    intro c w c2 w2 h hks hrun
    have hk := hks k (List.mem_cons_self k ks)
    have hn := invoke_keeps_unselected cv srv k c w h hk
    simp only [run] at hrun
    split at hrun
    · exact absurd hrun (by simp)
    · exact ih _ _ c2 w2 hn (fun j hj => hks j (List.mem_cons_of_mem k hj)) hrun

/-! ## Removing the table -/

/-- Claim C7: with a table selected, if `remove_table()` returns then it issued
exactly one request, `remove_table` with the id that was selected, and reset
`cur_table_id_` to `-1`; from then on, after any run of calls that contains
neither `create_table` nor `set_current_table`, every table-scoped call
(`remove_table` included) throws the illegal-state exception and changes
nothing. -/
theorem remove_table_unselects (cv : rpc_type_conversions) (srv : thrift_service)
    (c : rpc_client) (w : List rpc_event) (hsel : c.cur_table_id_ ≠ -1)
    (hok : (remove_table srv c w).result = .returned ()) :
    issued w (remove_table srv c w).wire = [.remove_table c.cur_table_id_] ∧
    (remove_table srv c w).self = { c with cur_table_id_ := -1 } ∧
    ∀ (ks : List invocation) (c2 : rpc_client) (w2 : List rpc_event),
      (∀ k ∈ ks, k.selects = false) →
      run cv srv ks (remove_table srv c w).self (remove_table srv c w).wire = some (c2, w2) →
      ∀ k : invocation, k.table_scoped = true →
        invoke cv srv k c2 w2
          = ⟨.thrown (.illegal_state_exception "Must set table first"), c2, w2⟩ := by
  have e : remove_table srv c w =
      ⟨.returned (), { c with cur_table_id_ := -1 }, w ++ [.remove_table c.cur_table_id_]⟩ := by
    revert hok
    simp only [remove_table, hsel, if_false]
    rcases stub_call_cases srv c w (.remove_table c.cur_table_id_)
      with ⟨_, h⟩ | ⟨_, res, _, h⟩
    · rw [h]; simp
    · rw [h]
      cases res with
      | returned v => intro _; rfl
      | thrown x => simp
      | crashed => simp
  rw [e]
  refine ⟨by simp [issued], rfl, ?_⟩
  intro ks c2 w2 hks hrun k hk
  exact invoke_unselected cv srv k c2 w2
    (run_keeps_unselected cv srv ks _ _ c2 w2 rfl hks hrun) hk

/-- Claim C7 on the table `events`: `remove_table()` returns, and after
`add_index`, `disconnect` and `connect` a `write` still throws at the gate. -/
theorem remove_table_unselects_witness :
    events_client.cur_table_id_ ≠ -1 ∧
    (remove_table events_service events_client events_wire).result = .returned () ∧
    (remove_table events_service events_client events_wire).self.cur_table_id_ = -1 ∧
    (∃ c2 w2,
      run plain_conversions events_service
        [.add_index "ts" ⟨0⟩, .disconnect, .connect "localhost" 9090]
        (remove_table events_service events_client events_wire).self
        (remove_table events_service events_client events_wire).wire = some (c2, w2) ∧
      invoke plain_conversions events_service (.write (List.replicate 16 0)) c2 w2
        = ⟨.thrown (.illegal_state_exception "Must set table first"), c2, w2⟩) :=
  ⟨by decide, by decide, by decide, _, _, rfl,
    (remove_table_unselects plain_conversions events_service events_client events_wire
      (by decide) (by decide)).2.2
      [.add_index "ts" ⟨0⟩, .disconnect, .connect "localhost" 9090] _ _
      (by decide) rfl (.write (List.replicate 16 0)) rfl⟩

/-! ## Tearing the connection down -/

/-- On a transport that exists and is closed, `disconnect()` returns at once:
nothing is deregistered, nothing is closed, the object is unchanged. -/
theorem disconnect_closed (srv : thrift_service) (c : rpc_client) (w : List rpc_event)
    (t : TTransport) (ht : c.transport_ = some t) (hclosed : t.is_open = false) :
    disconnect srv c w = ⟨.returned (), c, w⟩ := by
  simp [disconnect, ht, hclosed]

/-- After a `disconnect()` that returned, a second `disconnect()` returns at
once and puts nothing on the wire. -/
theorem disconnect_twice (srv : thrift_service) (c : rpc_client) (w : List rpc_event)
    (h : (disconnect srv c w).result = .returned ()) :
    disconnect srv (disconnect srv c w).self (disconnect srv c w).wire
      = ⟨.returned (), (disconnect srv c w).self, (disconnect srv c w).wire⟩ := by
  revert h
  unfold disconnect
  split
  · simp
  · rename_i t ht
    by_cases ho : t.is_open = true
    · simp only [ho, if_true]
      split
      · simp
      · split
        · simp
        · split
          · simp
          · split
            · simp
            · simp
    · simp [ho, ht]

/-- Claim C5, the failing case: on the default-constructed client `transport_`
is empty, and `disconnect()` dereferences it for `isOpen()`: the call neither
returns nor throws, and so does the destructor, which calls it. -/
theorem disconnect_never_connected (srv : thrift_service) (w : List rpc_event) :
    rpc_client.init.transport_ = none ∧
    disconnect srv rpc_client.init w = ⟨.crashed, rpc_client.init, w⟩ ∧
    destructor srv rpc_client.init w = ⟨.crashed, rpc_client.init, w⟩ :=
  ⟨rfl, rfl, rfl⟩

/-- Claim C6, as amended: on a reachable client whose transport is open,
`disconnect()` calls `deregister_handler`; if that throws, the exception goes to
the caller and the transport is not closed; otherwise it closes the transport;
if the close throws, the exception goes to the caller; if both return,
`disconnect()` returns and the transport is closed. -/
theorem disconnect_open (cv : rpc_type_conversions) (srv : thrift_service)
    (c : rpc_client) (w : List rpc_event) (t : TTransport) (hr : reachable cv srv c w)
    (ht : c.transport_ = some t) (hopen : t.is_open = true) :
    disconnect srv c w =
      match srv w .deregister_handler with
      | .error x => ⟨.thrown (.thrift x), c, w ++ [.deregister_handler]⟩
      | .ok _ =>
        match srv (w ++ [.deregister_handler]) .transport_close with
        | .error x =>
          ⟨.thrown (.thrift x), c, w ++ [.deregister_handler, .transport_close]⟩
        | .ok _ =>
          ⟨.returned (), { c with transport_ := some ⟨false⟩ },
            w ++ [.deregister_handler, .transport_close]⟩ := by
  have hh := (reachable_handles_ok cv srv c w hr).2 (by simp [ht])
  cases hs : c.socket_ with
  | none => exact absurd hs hh.1
  | some s =>
    cases hc : c.client_ with
    | none => exact absurd hc hh.2
    | some u => simp [disconnect, ht, hopen, hs, hc]

/-- Claim C6, as amended, on the connected example client: both calls succeed
and the transport ends up closed. -/
theorem disconnect_open_witness :
    connected_client.transport_ = some ⟨true⟩ ∧
    disconnect events_service connected_client connected_wire =
      ⟨.returned (), { connected_client with transport_ := some ⟨false⟩ },
       connected_wire ++ [.deregister_handler, .transport_close]⟩ :=
  ⟨rfl, disconnect_open plain_conversions events_service connected_client connected_wire
    ⟨true⟩ connected_client_reachable rfl rfl⟩

/-- Claim C6 as stated fails: the client connects, the connection is then
lost, and `disconnect()` throws the exception of `deregister_handler` without
closing the transport. -/
theorem disconnect_propagates :
    connect dropping_service "localhost" 9090 rpc_client.init []
      = ⟨.returned (), connected_client, connected_wire⟩ ∧
    connected_client.transport_ = some ⟨true⟩ ∧
    disconnect dropping_service connected_client connected_wire =
      ⟨.thrown (.thrift ⟨"connection reset"⟩), connected_client,
       connected_wire ++ [.deregister_handler]⟩ ∧
    ¬ (disconnect dropping_service connected_client connected_wire).result = .returned () :=
  ⟨by decide, rfl, by decide, by decide⟩

/-! ## Failures and the table context -/

/-- A `remove_table()` that throws leaves the object as it was. -/
theorem remove_table_thrown (srv : thrift_service) (c : rpc_client) (w : List rpc_event)
    (x : exception) (h : (remove_table srv c w).result = .thrown x) :
    (remove_table srv c w).self = c := by
  revert h
  unfold remove_table
  split
  · intro _; rfl
  · rcases stub_call_cases srv c w (.remove_table c.cur_table_id_)
      with ⟨_, h⟩ | ⟨_, res, _, h⟩
    · rw [h]; simp
    · rw [h]
      cases res <;> simp

/-- A `set_current_table(name)` that throws leaves the object as it was. -/
theorem set_current_table_thrown (cv : rpc_type_conversions) (srv : thrift_service)
    (n : String) (c : rpc_client) (w : List rpc_event) (x : exception)
    (h : (set_current_table cv srv n c w).result = .thrown x) :
    (set_current_table cv srv n c w).self = c := by
  revert h
  unfold set_current_table
  rcases stub_call_cases srv c w (.get_table_info n) with ⟨_, h⟩ | ⟨_, res, _, h⟩
  · simp only [h]; simp
  · simp only [h]
    cases res <;> simp

/-- A `create_table(name, schema, mode)` that throws leaves the table id as it
was; the stored schema is the new one by then. -/
theorem create_table_thrown (cv : rpc_type_conversions) (srv : thrift_service)
    (n : String) (sch : schema_t) (m : storage_id) (c : rpc_client) (w : List rpc_event)
    (x : exception) (h : (create_table cv srv n sch m c w).result = .thrown x) :
    (create_table cv srv n sch m c w).self = { c with cur_schema_ := sch } := by
  revert h
  unfold create_table
  rcases stub_call_cases srv { c with cur_schema_ := sch } w
    (.create_table n (cv.to_wire sch.columns) (cv.convert_mode m))
    with ⟨_, h⟩ | ⟨_, res, _, h⟩
  · simp only [h]; simp
  · simp only [h]
    cases res <;> simp

/-- A call that throws leaves the stored table id as it was, and every call
but `create_table` leaves the stored schema as it was. -/
theorem thrown_keeps_context (cv : rpc_type_conversions) (srv : thrift_service)
    (k : invocation) (c : rpc_client) (w : List rpc_event) (x : exception)
    (h : (invoke cv srv k c w).result = .thrown x) :
    (invoke cv srv k c w).self.cur_table_id_ = c.cur_table_id_ ∧
    ((∀ n sch m, k ≠ .create_table n sch m) →
      (invoke cv srv k c w).self.cur_schema_ = c.cur_schema_) := by
  cases k with
  | connect host port =>
    exact ⟨(connect_context srv host port c w).1, fun _ => (connect_context srv host port c w).2⟩
  | disconnect =>
    exact ⟨(disconnect_context srv c w).1, fun _ => (disconnect_context srv c w).2⟩
  | create_table n sch m =>
    simp only [invoke] at h ⊢
    rw [create_table_thrown cv srv n sch m c w x h]
    exact ⟨rfl, fun hne => absurd rfl (hne n sch m)⟩
  | set_current_table n =>
    simp only [invoke] at h ⊢
    rw [set_current_table_thrown cv srv n c w x h]
    exact ⟨rfl, fun _ => rfl⟩
  | remove_table =>
    simp only [invoke] at h ⊢
    rw [remove_table_thrown srv c w x h]
    exact ⟨rfl, fun _ => rfl⟩
  | _ => rw [invoke_self] <;> first | exact ⟨rfl, fun _ => rfl⟩ | rfl | simp

/-- Claim C3, the failing case: the client has table 7 (`events`, record size
16) selected; `create_table("other", other_schema, mode)` is refused by the
service and throws.  The stored table id is still 7, but the stored schema is
`other_schema` already, and a 16-byte record for table 7 is now rejected by
the size check. -/
theorem create_table_failure_changes_schema :
    events_client.cur_table_id_ = 7 ∧ events_client.cur_schema_ = events_schema ∧
    create_table plain_conversions events_service "other" other_schema ⟨0⟩
        events_client events_wire =
      ⟨.thrown (.thrift ⟨"table already exists"⟩),
       { events_client with cur_schema_ := other_schema },
       events_wire ++ [.create_table "other" [⟨3, 4, "count"⟩] ⟨0⟩]⟩ ∧
    (create_table plain_conversions events_service "other" other_schema ⟨0⟩
        events_client events_wire).self.cur_schema_ ≠ events_client.cur_schema_ ∧
    (write events_service (List.replicate 16 0)
        { events_client with cur_schema_ := other_schema }
        (events_wire ++ [.create_table "other" [⟨3, 4, "count"⟩] ⟨0⟩])).result =
      .thrown (.illegal_state_exception "Record size incorrect; expected=4, got=16") := by
  decide

end confluo.rpc
